import Mathlib

/-!
Verification of the CardDAV synchronization engine core (carddav.cpp).

The development shallowly embeds the data model and the operations of the
engine: strings are lists of characters, the persistent sync-state maps are
association lists, and each HTTP-callback handler becomes a pure function
from its inputs (engine state, reply status, parsed payload) to the action
it performs (request issued, state update, error emission).  External
collaborators (the Qt Versit serializer, the XML reply parser, the
significant-differences predicate of the Syncer facade) enter as parameters
or as hypotheses describing the shape of their output.
-/

/-- Strings are modelled as lists of characters (QString). -/
abbrev Str := List Char

/-- Does `s` start with `p`?  Model of QString::startsWith. -/
def startsWithL : Str → Str → Bool
  | _, [] => true
  | [], _ :: _ => false
  | c :: cs, d :: ds => c == d && startsWithL cs ds

/-- Does `s` end with `p`?  Model of QString::endsWith. -/
def endsWithL (s p : Str) : Bool :=
  startsWithL s.reverse p.reverse

/-- Value lookup in an association-list map with a default for missing keys
(QMap::value / operator[]). -/
def lookupD {α : Type} (m : List (Str × α)) (k : Str) (dflt : α) : α :=
  match m.lookup k with
  | some v => v
  | none => dflt

/-- Key assignment in an association-list map (QMap::insert / operator[]=). -/
def mapInsert {α : Type} (m : List (Str × α)) (k : Str) (v : α) : List (Str × α) :=
  (k, v) :: m.filter (fun e => e.1 ≠ k)

/-- Key removal from an association-list map (QMap::remove). -/
def mapRemove {α : Type} (m : List (Str × α)) (k : Str) : List (Str × α) :=
  m.filter (fun e => e.1 ≠ k)

/-- Spelling of the addressbook marker used inside GUIDs. -/
def abMarkerS : String := ":AB:"

/-- The addressbook marker as a character list. -/
def abMarker : Str := abMarkerS.data

/-- The decimal rendering of an account id (QString::number). -/
def acctStr (accountId : Nat) : Str := (Nat.repr accountId).data

/-- The full addressbook-specific GUID prefix `<accountId>:AB:<addressbookUrl>:`. -/
def abFullPrefix (accountId : Nat) (addressbookUrl : Str) : Str :=
  acctStr accountId ++ abMarker ++ addressbookUrl ++ [':']

/-- The addressbook-form account prefix `<accountId>:AB:`. -/
def abAcctABPrefix (accountId : Nat) : Str :=
  acctStr accountId ++ abMarker

/-- The legacy account prefix `<accountId>:`. -/
def abAcctPrefix (accountId : Nat) : Str :=
  acctStr accountId ++ [':']

/-- Model of the file-static helper `transformIntoAddressbookSpecificGuid`
(carddav.cpp lines 1010-1031).  A GUID already specific to this addressbook,
or to a different addressbook, is returned unchanged; an account-prefixed
legacy GUID has its account prefix replaced by the addressbook-specific
prefix; a bare device-side GUID is wrapped whole.  The code computes the
remainder of a legacy GUID with indexOf(':'); under that branch the guard
guarantees a ':' occurs, so findIdx agrees with it. -/
def transformIntoAddressbookSpecificGuid (guidstr : Str) (accountId : Nat) (addressbookUrl : Str) : Str :=
  if startsWithL guidstr (abFullPrefix accountId addressbookUrl) then
    -- nothing to do, already a guid for this addressbook
    guidstr
  else if startsWithL guidstr (abAcctABPrefix accountId) then
    -- guid for a different addressbook; returned unchanged
    guidstr
  else if startsWithL guidstr (abAcctPrefix accountId) then
    -- already accountId prefixed, from a sync cycle prior to addressbook-prefixed guids
    abFullPrefix accountId addressbookUrl ++ guidstr.drop (guidstr.findIdx (fun ch => ch == ':') + 1)
  else
    -- non-prefixed, device-side guid (e.g. a local contact addition)
    abFullPrefix accountId addressbookUrl ++ guidstr

/-- Spelling of the well-known suffix checked with QString::endsWith. -/
def wellKnownSuffixS : String := ".well-known/carddav"

/-- The well-known suffix as a character list. -/
def wellKnownSuffix : Str := wellKnownSuffixS.data

/-- Spelling of the well-known bootstrap path. -/
def wellKnownPathS : String := "/.well-known/carddav"

/-- The well-known bootstrap path as a character list. -/
def wellKnownPath : Str := wellKnownPathS.data

/-- The root path. -/
def slashPath : Str := '/' :: []

/-- A server URL, decomposed the way QUrl exposes it. -/
structure Url where
  scheme : Str
  host : Str
  path : Str
deriving DecidableEq

/-- The discovery stages of the engine used by the principal-discovery
logic (carddav_p.h is consumed through its uses in carddav.cpp). -/
inductive Stage where
  | DiscoveryStarted
  | DiscoveryRedirected
  | DiscoveryTryRoot
deriving DecidableEq

/-- The engine state relevant to principal discovery: the discovery stage
and the current server URL. -/
structure Engine where
  stage : Stage
  serverUrl : Url
deriving DecidableEq

/-- Model of CardDav::fetchUserInformation (carddav.cpp lines 452-497):
on the first request, an empty or root path is substituted by the
well-known CardDAV bootstrap path; the PROPFIND is issued against the
resulting URL, which also becomes the stored server URL. -/
def fetchUserInformation (e : Engine) : Engine × Url :=
  let wellKnownUrl : Url := ⟨e.serverUrl.scheme, e.serverUrl.host, wellKnownPath⟩
  let newUrl :=
    if e.stage = Stage.DiscoveryStarted ∧ (e.serverUrl.path = [] ∨ e.serverUrl.path = slashPath)
    then wellKnownUrl else e.serverUrl
  ({ e with serverUrl := newUrl }, newUrl)

/-- Outcome of handling an error reply to the principal PROPFIND. -/
inductive ErrorStep where
  | retry (next : Engine) (requested : Url)
  | fatal (httpError : Nat)
deriving DecidableEq

/-- Model of the error path of CardDav::userInformationResponse
(carddav.cpp lines 515-542): on 404/405 during the initial discovery
stage, retry against the well-known path, or, when the failed path was
already the well-known one, against the root path; any other error is
fatal. -/
def userInformationErrorResponse (e : Engine) (httpError : Nat) : ErrorStep :=
  if e.stage = Stage.DiscoveryStarted ∧ (httpError = 404 ∨ httpError = 405) then
    if endsWithL e.serverUrl.path wellKnownSuffix then
      -- well-known also failed: try the root URI
      let e1 : Engine := ⟨Stage.DiscoveryTryRoot, ⟨e.serverUrl.scheme, e.serverUrl.host, slashPath⟩⟩
      let fr := fetchUserInformation e1
      ErrorStep.retry fr.1 fr.2
    else
      -- initial context path failed: try the well-known URI
      let e1 : Engine := { e with serverUrl := ⟨e.serverUrl.scheme, e.serverUrl.host, wellKnownPath⟩ }
      let fr := fetchUserInformation e1
      ErrorStep.retry fr.1 fr.2
  else ErrorStep.fatal httpError

/-- Outcome of handling a redirect reply to the principal PROPFIND. -/
inductive RedirectOutcome where
  | adopt (next : Engine)
  | abort (httpError : Nat)
deriving DecidableEq

/-- Model of the redirect path of CardDav::userInformationResponse
(carddav.cpp lines 545-570): a cross-path redirect from the well-known
path is adopted as the new base server URL (scheme and host falling back
to the original when the target omits them) and discovery continues in
the redirected stage; a same-path redirect, or a cross-path redirect
from any other path, aborts with 301. -/
def userInformationRedirectResponse (e : Engine) (redir : Url) : RedirectOutcome :=
  let orig := e.serverUrl
  if orig.path ≠ redir.path then
    if endsWithL orig.path wellKnownSuffix then
      RedirectOutcome.adopt
        ⟨Stage.DiscoveryRedirected,
         ⟨(if redir.scheme = [] then orig.scheme else redir.scheme),
          (if redir.host = [] then orig.host else redir.host),
          redir.path⟩⟩
    else RedirectOutcome.abort 301
  else RedirectOutcome.abort 301

/-- Modification kinds reported for a contact resource. -/
inductive ModType where
  | addition
  | modification
  | deletion
deriving DecidableEq

/-- A parsed ContactInformation entry: server URI, ETag, optional GUID
and modification kind. -/
structure ContactInfo where
  uri : Str
  etag : Str
  guid : Str
  modType : ModType
deriving DecidableEq

/-- Action taken on receipt of a sync-token REPORT reply. -/
inductive ImmediateDeltaAction where
  | fallbackFullListing (addressbookUrl : Str)
  | applyDelta (newSyncToken : Str) (infos : List ContactInfo)
  | failSync (httpError : Nat)
deriving DecidableEq

/-- Model of CardDav::immediateDeltaResponse (carddav.cpp lines 780-799):
an error reply (the server may legitimately have forgotten the sync
token) degrades silently to a full ETag listing of the addressbook; a
successful reply stores the new sync token and proceeds with the parsed
delta.  The XML parser is external, so its output is a parameter. -/
def immediateDeltaResponse (cachedSyncTokens : List (Str × Str)) (addressbookUrl : Str)
    (replyError : Option Nat) (parsedNewSyncToken : Str) (parsedInfos : List ContactInfo) :
    ImmediateDeltaAction × List (Str × Str) :=
  match replyError with
  | some _ => (ImmediateDeltaAction.fallbackFullListing addressbookUrl, cachedSyncTokens)
  | none =>
      (ImmediateDeltaAction.applyDelta parsedNewSyncToken parsedInfos,
       mapInsert cachedSyncTokens addressbookUrl parsedNewSyncToken)

/-- Parsed per-addressbook information: URL, CTag and sync token (either
of the latter may be empty). -/
structure ABInfo where
  url : Str
  ctag : Str
  syncToken : Str
deriving DecidableEq

/-- The delta strategy chosen for one addressbook. -/
inductive DeltaAction where
  | fullListing
  | syncReport (previousSyncToken : Str)
  | noRequestDeferredComplete
deriving DecidableEq

/-- Model of the per-addressbook branch of CardDav::downsyncAddressbookContent
(carddav.cpp lines 706-758): returns the chosen delta strategy together
with the updated CTag and sync-token caches. -/
def downsyncOneAddressbook (cachedCtags cachedSyncTokens : List (Str × Str)) (info : ABInfo) :
    DeltaAction × List (Str × Str) × List (Str × Str) :=
  if info.syncToken = [] ∧ info.ctag = [] then
    -- neither sync-token nor ctag: manual delta detection required
    (DeltaAction.fullListing, mapInsert cachedCtags info.url info.ctag, cachedSyncTokens)
  else if info.syncToken = [] then
    let existingCtag := lookupD cachedCtags info.url []
    if existingCtag = [] then
      -- first time sync: etag request, delta will be all remote additions
      (DeltaAction.fullListing, mapInsert cachedCtags info.url info.ctag, cachedSyncTokens)
    else if existingCtag ≠ info.ctag then
      -- changes since last sync: etag request then manual delta
      (DeltaAction.fullListing, mapInsert cachedCtags info.url info.ctag, cachedSyncTokens)
    else
      -- no changes since last sync
      (DeltaAction.noRequestDeferredComplete, cachedCtags, cachedSyncTokens)
  else
    -- store the ctag anyway in case the server forgot the cached syncToken
    let ctags1 := if info.ctag ≠ [] then mapInsert cachedCtags info.url info.ctag else cachedCtags
    let existingSyncToken := lookupD cachedSyncTokens info.url []
    if existingSyncToken = [] then
      -- first time sync: slow sync / full report
      (DeltaAction.fullListing, ctags1, mapInsert cachedSyncTokens info.url info.syncToken)
    else if existingSyncToken ≠ info.syncToken then
      -- immediate delta sync, passing the old sync token to the server
      (DeltaAction.syncReport existingSyncToken, ctags1, mapInsert cachedSyncTokens info.url info.syncToken)
    else
      -- no changes since last sync
      (DeltaAction.noRequestDeferredComplete, ctags1, cachedSyncTokens)

/-- Projection of the default-addressbook assignment performed by the
enumeration loop of CardDav::downsyncAddressbookContent (carddav.cpp
lines 699-704): each iteration sets the default to the current
addressbook URL if none is set yet, before any delta strategy is
chosen. -/
def updatedDefaultAddressbook (defaultAddressbook : Str) (infos : List ABInfo) : Str :=
  infos.foldl (fun cur info => if cur = [] then info.url else cur) defaultAddressbook

/-- The spec's wording for C4, stated for comparison with the code's
behaviour: the first addressbook in enumeration order whose chosen delta
strategy is an actual request (any delta activity). -/
def firstAddressbookWithDeltaActivity (cachedCtags cachedSyncTokens : List (Str × Str))
    (infos : List ABInfo) : Option Str :=
  match infos.find? (fun info =>
      match (downsyncOneAddressbook cachedCtags cachedSyncTokens info).1 with
      | DeltaAction.noRequestDeferredComplete => false
      | _ => true) with
  | some info => some info.url
  | none => none

/-- Structured name parts of a contact (QContactName). -/
structure CName where
  firstName : Str
  lastName : Str
deriving DecidableEq

/-- The slice of a QContact the engine manipulates: the guid detail, the
local contact-store id, the structured name and the display label. -/
structure Contact where
  guid : Str
  id : Str
  name : CName
  displayLabel : Str
deriving DecidableEq

/-- A DELETE issued by the upsync (RequestGenerator::upsyncDeletion). -/
structure DeleteRequest where
  uri : Str
  ifMatchEtag : Str
deriving DecidableEq

/-- A PUT issued by the upsync (RequestGenerator::upsyncAddMod).  An empty
If-Match etag means creation (If-None-Match: *). -/
structure PutRequest where
  uri : Str
  ifMatchEtag : Str
  contact : Contact
  unsupportedProperties : List Str
deriving DecidableEq

/-- The persistent per-GUID sync state owned by the Syncer, plus the
per-run multi-map of contacts downsynced in this run keyed by server
UID. -/
structure SyncState where
  contactUids : List (Str × Str)
  contactUris : List (Str × Str)
  contactEtags : List (Str × Str)
  contactIds : List (Str × Str)
  contactUnsupportedProperties : List (Str × List Str)
  addressbookContactGuids : List (Str × List Str)
  serverAddModsByUid : List (Str × Str × Contact)
deriving DecidableEq

/-- QList::removeOne applied to the guid list of one addressbook.
QMap::operator[] default-constructs an entry for a missing key and
removing from the fresh empty list is a no-op, so the missing-key case
is modelled as the identity. -/
def removeOneGuid (m : List (Str × List Str)) (addressbookUrl guid : Str) : List (Str × List Str) :=
  m.map (fun e => if e.1 = addressbookUrl then (e.1, e.2.erase guid) else e)

/-- Rekeying of one association-list map entry from an old key to a new
key. -/
def rekey {α : Type} (m : List (Str × α)) (oldk newk : Str) : List (Str × α) :=
  m.map (fun e => if e.1 = oldk then (newk, e.2) else e)

/-- Modelled from the spec: `Syncer::migrateGuidData` lives in syncer.cpp,
which is not among the provided sources.  Spec section 9: legacy GUIDs of
the form `<accountId>:<uid>` are transformed in place to
`<accountId>:AB:<abUrl>:<uid>` on first encounter during upsync, and
"state entries are rekeyed atomically": every per-GUID map entry keyed by
the old GUID is rekeyed to the new GUID, and the membership entry in the
addressbook's GUID list is replaced. -/
def migrateGuidData (oldguid newguid addressbookUrl : Str) (s : SyncState) : SyncState :=
  { contactUids := rekey s.contactUids oldguid newguid
    contactUris := rekey s.contactUris oldguid newguid
    contactEtags := rekey s.contactEtags oldguid newguid
    contactIds := rekey s.contactIds oldguid newguid
    contactUnsupportedProperties := rekey s.contactUnsupportedProperties oldguid newguid
    addressbookContactGuids := s.addressbookContactGuids.map
      (fun e => if e.1 = addressbookUrl then
        (e.1, e.2.map (fun g => if g = oldguid then newguid else g)) else e)
    serverAddModsByUid := s.serverAddModsByUid }

/-- Model of the file-static helper `setUpsyncContactGuid` (carddav.cpp
lines 1033-1048): duplicate guid details are dropped and the single
remaining guid detail is set to the server-side UID; our contact model
holds one guid field, so this sets it. -/
def setUpsyncContactGuid (c : Contact) (uid : Str) : Contact :=
  { c with guid := uid }

/-- The values recorded under one server UID in the per-run
QMultiHash m_serverAddModsByUid: pairs of addressbook URL and downsynced
contact. -/
def multiValues (m : List (Str × Str × Contact)) (uid : Str) : List (Str × Contact) :=
  (m.filter (fun e => e.1 = uid)).map (fun e => e.2)

/-- Model of the local-removals loop body of CardDav::upsyncUpdates
(carddav.cpp lines 1153-1189): the guid is transformed to the
addressbook-specific form (migrating legacy state when only the old form
is known); a removal whose URI is unknown is skipped with a warning;
otherwise a DELETE with If-Match on the stored ETag is issued and the
per-GUID state entries for uids, uris, etags, ids and addressbook
membership are removed at dispatch time. -/
def processLocalRemoval (s : SyncState) (accountId : Nat) (addressbookUrl : Str) (c : Contact) :
    Option DeleteRequest × SyncState :=
  let oldguidstr := c.guid
  let guidstr := transformIntoAddressbookSpecificGuid c.guid accountId addressbookUrl
  if lookupD s.contactUris guidstr [] = [] ∧ lookupD s.contactUris oldguidstr [] = [] then
    -- deleted contact server uri unknown: skipped with a warning
    (none, s)
  else
    let s1 := if lookupD s.contactUris guidstr [] = []
              then migrateGuidData oldguidstr guidstr addressbookUrl s else s
    let req : DeleteRequest := ⟨lookupD s1.contactUris guidstr [], lookupD s1.contactEtags guidstr []⟩
    -- clear state data for this (deleted) contact
    let s2 : SyncState := { s1 with
      contactEtags := mapRemove s1.contactEtags guidstr
      contactUris := mapRemove s1.contactUris guidstr
      contactIds := mapRemove s1.contactIds guidstr
      contactUids := mapRemove s1.contactUids guidstr
      addressbookContactGuids := removeOneGuid s1.addressbookContactGuids addressbookUrl guidstr }
    (some req, s2)

/-- Outcome of CardDav::upsyncResponse towards the rest of the sync. -/
inductive UpsyncResponseResult where
  | continueSync
  | errorAbort (httpError : Nat)
deriving DecidableEq

/-- Model of CardDav::upsyncResponse (carddav.cpp lines 1202-1248) for a
DELETE reply.  Deletion requests carry no contactGuid property, so the
etag-refresh block is skipped entirely; HTTP 405 is logged and swallowed
(read-only collection), any other error aborts; the sync state is never
touched. -/
def upsyncDeletionResponse (s : SyncState) (failed : Bool) (httpError : Nat) :
    UpsyncResponseResult × SyncState :=
  if failed then
    if httpError = 405 then
      -- MethodNotAllowed: continue the sync despite the error
      (UpsyncResponseResult.continueSync, s)
    else (UpsyncResponseResult.errorAbort httpError, s)
  else (UpsyncResponseResult.continueSync, s)

/-- Model of the local-modifications loop body of CardDav::upsyncUpdates
(carddav.cpp lines 1092-1151): a contact without guid is skipped; the
guid is transformed to the addressbook-specific form (migrating legacy
state when only the old form is known); an unknown server UID is skipped
with a warning; a modification whose UID was downsynced in this run and
which differs from none of the downsynced copies by a significant field
is spurious and silently skipped; otherwise a PUT with If-Match on the
stored ETag is issued.  The significant-differences predicate belongs to
the Syncer facade and is a parameter. -/
def processLocalModification (sigDiff : Contact → Contact → Bool) (s : SyncState)
    (accountId : Nat) (addressbookUrl : Str) (c : Contact) : Option PutRequest × SyncState :=
  if c.guid = [] then
    -- modified contact has no guid: skipped with a warning
    (none, s)
  else
    let oldguidstr := c.guid
    let guidstr := transformIntoAddressbookSpecificGuid c.guid accountId addressbookUrl
    if lookupD s.contactUids guidstr [] = [] ∧ lookupD s.contactUids oldguidstr [] = [] then
      -- modified contact server uid unknown: skipped with a warning
      (none, s)
    else
      let s1 := if lookupD s.contactUids guidstr [] = []
                then migrateGuidData oldguidstr guidstr addressbookUrl s else s
      let uidstr := lookupD s1.contactUids guidstr []
      let c1 := setUpsyncContactGuid c uidstr
      -- check for a spurious change caused by downsync of a remote
      -- addition/modification, perhaps to the same contact in a
      -- different addressbook
      if multiValues s1.serverAddModsByUid uidstr ≠ []
          ∧ (multiValues s1.serverAddModsByUid uidstr).all (fun p => !(sigDiff c1 p.2)) then
        (none, s1)
      else
        (some ⟨lookupD s1.contactUris guidstr [], lookupD s1.contactEtags guidstr [], c1,
               lookupD s1.contactUnsupportedProperties guidstr []⟩, s1)

/-- Concrete addressbook URL used by the examples. -/
def exAbUrlS : String := "/ab"

/-- Concrete addressbook URL as a character list. -/
def exAbUrl : Str := exAbUrlS.data

/-- Concrete addressbook-specific GUID used by the examples. -/
def exGuidS : String := "5:AB:/ab:u1"

/-- Concrete addressbook-specific GUID as a character list. -/
def exGuid : Str := exGuidS.data

/-- Concrete contact URI used by the examples. -/
def exUriS : String := "/ab/u1.vcf"

/-- Concrete contact URI as a character list. -/
def exUri : Str := exUriS.data

/-- Concrete sync state with one known contact, used by the examples. -/
def exState : SyncState :=
  { contactUids := (exGuid, 'u' :: '1' :: []) :: []
    contactUris := (exGuid, exUri) :: []
    contactEtags := (exGuid, 'e' :: '1' :: []) :: []
    contactIds := (exGuid, 'i' :: '1' :: []) :: []
    contactUnsupportedProperties := (exGuid, ('X' :: '-' :: 'F' :: []) :: []) :: []
    addressbookContactGuids := (exAbUrl, exGuid :: []) :: []
    serverAddModsByUid := [] }

/-- Concrete contact carrying the example GUID. -/
def exContact : Contact := ⟨exGuid, 'i' :: '1' :: [], ⟨[], []⟩, []⟩

/-- Spelling of the vCard terminator property name. -/
def endVcardS : String := "END:VCARD"

/-- The vCard terminator as a character list. -/
def endVcard : Str := endVcardS.data

/-- The CRLF line terminator. -/
def crlf : Str := '\r' :: '\n' :: []

/-- Does `pat` occur in `s` at position `i`? -/
def occursAtB (pat s : Str) (i : Nat) : Bool :=
  startsWithL (s.drop i) pat

/-- The largest occurrence position of `pat` in `s` strictly below `n`,
scanning downward. -/
def lastOccBelow (pat s : Str) : Nat → Option Nat
  | 0 => none
  | n + 1 => if occursAtB pat s n then some n else lastOccBelow pat s n

/-- Model of QString::lastIndexOf: the index of the last occurrence of
`pat` in `s`, or -1 when there is none. -/
def lastIndexOf (s pat : Str) : Int :=
  match lastOccBelow pat s (s.length + 1) with
  | some i => (i : Int)
  | none => -1

/-- Model of QString::insert at a position. -/
def insertAt (s : Str) (i : Nat) (t : Str) : Str :=
  s.take i ++ t ++ s.drop i

/-- Model of the unsupported-property splice loop of
CardDavVCardConverter::convertContactToVCard (carddav.cpp lines
230-237): each unsupported property line, suffixed with CRLF, is
inserted at the position of the last END:VCARD occurrence of the vCard
text accumulated so far, provided that position is positive.  The
serialized vCard produced by QVersitWriter is the loop's starting
value. -/
def addUnsupportedProperties (vcardText : Str) (unsupportedProperties : List Str) : Str :=
  unsupportedProperties.foldl
    (fun retn propStr =>
      let endIdx := lastIndexOf retn endVcard
      if endIdx > 0 then insertAt retn endIdx.toNat (propStr ++ crlf) else retn)
    vcardText

/-- The concatenation of property lines, each terminated by CRLF. -/
def flatProps (props : List Str) : Str :=
  (props.map (fun p => p ++ crlf)).flatten

/-- Spelling of the serialized vCard body used by the C8 example. -/
def c8BodyS : String := "BEGIN:VCARD\r\nFN:A\r\n"

/-- The serialized vCard body of the C8 example as a character list. -/
def c8Body : Str := c8BodyS.data

/-- Spelling of the first unsupported property of the C8 example. -/
def c8Prop1S : String := "X-CUSTOM-FIELD:foo"

/-- The first unsupported property of the C8 example. -/
def c8Prop1 : Str := c8Prop1S.data

/-- Spelling of the second unsupported property of the C8 example. -/
def c8Prop2S : String := "X-OTHER:bar"

/-- The second unsupported property of the C8 example. -/
def c8Prop2 : Str := c8Prop2S.data

/-- A property of a serialized versit document (QVersitProperty). -/
structure VProp where
  name : Str
  value : Str
deriving DecidableEq

/-- Spelling of the FN property name. -/
def fnNameS : String := "FN"

/-- The FN property name as a character list. -/
def fnName : Str := fnNameS.data

/-- Spelling of the N property name. -/
def nNameS : String := "N"

/-- The N property name as a character list. -/
def nName : Str := nNameS.data

/-- The last element of a list of strings, with a default. -/
def lastStr : Str → List Str → Str
  | d, [] => d
  | _, x :: xs => lastStr x xs

/-- Modelled from the spec: `SeasideCache::generateDisplayLabel` belongs
to the external libcontacts library, not to this repository's sources.
Per spec section 4.2 and scenario 6 it produces the contact's display
label. -/
def generateDisplayLabel (c : Contact) : Str := c.displayLabel

/-- Modelled from the spec: `SeasideCache::decomposeDisplayLabel` belongs
to the external libcontacts library, not to this repository's sources.
Per spec section 4.2 and scenario 6 ("Jane Q Public" decomposes into
first name Jane and last name Public; a single-token label yields no
first name, leaving the caller's fallback to fire), the label is split
on spaces, the first token becoming the first name and the final token
the last name; with fewer than two tokens the name is left unchanged. -/
def decomposeDisplayLabel (label : Str) (name : CName) : CName :=
  let tokens := (label.splitOn ' ').filter (fun t => t ≠ [])
  match tokens with
  | [] => name
  | _ :: [] => name
  | t1 :: t2 :: ts => { firstName := t1, lastName := lastStr t2 ts }

/-- Model of CardDavVCardConverter::contactProcessed (carddav.cpp lines
312-355): FN and N are required vCard 3.0 fields; when the serialized
document lacks FN, one is appended carrying the generated display label;
when it lacks N, one is appended built from the decomposition of that
display label, falling back to the whole label as first name when the
decomposition yields none, formatted `last;first;;;`. -/
def contactProcessed (c : Contact) (d : List VProp) : List VProp :=
  let foundFN := d.any (fun p => p.name == fnName)
  let foundN := d.any (fun p => p.name == nName)
  if !foundFN || !foundN then
    let displaylabel := generateDisplayLabel c
    let d1 := if !foundFN then d ++ (⟨fnName, displaylabel⟩ :: []) else d
    if !foundN then
      let name0 := decomposeDisplayLabel displaylabel c.name
      let name1 := if name0.firstName = [] then { name0 with firstName := displaylabel } else name0
      let nvalue := name1.lastName ++ (';' :: name1.firstName) ++ (';' :: ';' :: ';' :: [])
      d1 ++ (⟨nName, nvalue⟩ :: [])
    else d1
  else d

/-- Spelling of the display label of the C9 example. -/
def janeLabelS : String := "Jane Q Public"

/-- The display label of the C9 example as a character list. -/
def janeLabel : Str := janeLabelS.data

/-- The C9 example contact: display label only, no structured name. -/
def janeContact : Contact := ⟨[], [], ⟨[], []⟩, janeLabel⟩

/-- The C9 example serialized document, lacking FN and N. -/
def janeDoc : List VProp :=
  ⟨'T' :: 'E' :: 'L' :: [], '1' :: '2' :: '3' :: []⟩ :: []

/-- Spelling of the expected N value of the C9 example. -/
def janeNS : String := "Public;Jane;;;"

/-- The expected N value of the C9 example as a character list. -/
def janeN : Str := janeNS.data

/-- The expected decomposed name of the C9 example. -/
def janeName : CName := ⟨'J' :: 'a' :: 'n' :: 'e' :: [], 'P' :: 'u' :: 'b' :: 'l' :: 'i' :: 'c' :: []⟩

/-- A C9 example document that already carries N but lacks FN. -/
def janeDocN : List VProp := janeDoc ++ (⟨nName, janeN⟩ :: [])

/-- A C9 example document that already carries FN but lacks N. -/
def janeDocFN : List VProp := janeDoc ++ (⟨fnName, janeLabel⟩ :: [])

theorem startsWithL_nil (s : Str) : startsWithL s [] = true := by
  cases s <;> rfl

theorem startsWithL_append_self (p r : Str) : startsWithL (p ++ r) p = true := by
  induction p with
  | nil => exact startsWithL_nil r
  | cons c cs ih => simp [startsWithL, ih]

theorem transform_of_full_prefix (accountId : Nat) (addressbookUrl rest : Str) :
    transformIntoAddressbookSpecificGuid (abFullPrefix accountId addressbookUrl ++ rest) accountId addressbookUrl
      = abFullPrefix accountId addressbookUrl ++ rest := by
  unfold transformIntoAddressbookSpecificGuid
  rw [if_pos (startsWithL_append_self _ _)]

theorem transform_of_ab_prefix {g : Str} (accountId : Nat) (addressbookUrl : Str)
    (h : startsWithL g (abAcctABPrefix accountId) = true) :
    transformIntoAddressbookSpecificGuid g accountId addressbookUrl = g := by
  unfold transformIntoAddressbookSpecificGuid
  by_cases h1 : startsWithL g (abFullPrefix accountId addressbookUrl) = true
  · rw [if_pos h1]
  · rw [if_neg h1, if_pos h]

/-- C10: the GUID transformation is idempotent: its output is a fixed point,
and any GUID already carrying the `<accountId>:AB:` prefix is returned
unchanged. -/
theorem c10_transform_idempotent (g : Str) (accountId : Nat) (addressbookUrl : Str) :
    transformIntoAddressbookSpecificGuid
        (transformIntoAddressbookSpecificGuid g accountId addressbookUrl) accountId addressbookUrl
      = transformIntoAddressbookSpecificGuid g accountId addressbookUrl
    ∧ (startsWithL g (abAcctABPrefix accountId) = true →
        transformIntoAddressbookSpecificGuid g accountId addressbookUrl = g) := by
  constructor
  · by_cases h1 : startsWithL g (abFullPrefix accountId addressbookUrl) = true
    · have hg : transformIntoAddressbookSpecificGuid g accountId addressbookUrl = g := by
        unfold transformIntoAddressbookSpecificGuid
        rw [if_pos h1]
      rw [hg, hg]
    · by_cases h2 : startsWithL g (abAcctABPrefix accountId) = true
      · have hg := transform_of_ab_prefix (g := g) accountId addressbookUrl h2
        rw [hg, hg]
      · -- branches three and four both produce a string with the full prefix
        have hg : transformIntoAddressbookSpecificGuid g accountId addressbookUrl
            = abFullPrefix accountId addressbookUrl ++
              (if startsWithL g (abAcctPrefix accountId) = true then
                g.drop (g.findIdx (fun ch => ch == ':') + 1) else g) := by
          unfold transformIntoAddressbookSpecificGuid
          rw [if_neg h1, if_neg h2]
          by_cases h3 : startsWithL g (abAcctPrefix accountId) = true
          · rw [if_pos h3, if_pos h3]
          · rw [if_neg h3, if_neg h3]
        rw [hg]
        exact transform_of_full_prefix accountId addressbookUrl _
  · intro h
    exact transform_of_ab_prefix accountId addressbookUrl h

/-- Witness for C10: the prefix hypothesis discharged on a concrete GUID. -/
theorem c10_transform_idempotent_witness :
    startsWithL ('7' :: ':' :: 'A' :: 'B' :: ':' :: 'x' :: []) (abAcctABPrefix 7) = true
    ∧ transformIntoAddressbookSpecificGuid ('7' :: ':' :: 'A' :: 'B' :: ':' :: 'x' :: []) 7 ('u' :: [])
        = '7' :: ':' :: 'A' :: 'B' :: ':' :: 'x' :: [] :=
  ⟨by decide, (c10_transform_idempotent ('7' :: ':' :: 'A' :: 'B' :: ':' :: 'x' :: []) 7 ('u' :: [])).2 (by decide)⟩

/-- C5: a cross-path redirect of the principal PROPFIND from the
well-known path is adopted as the new base server URL and discovery
continues; a same-path redirect, or a cross-path redirect from a
non-well-known path, aborts the sync with error 301. -/
theorem c5_redirect_handling (e : Engine) (redir : Url) :
    (endsWithL e.serverUrl.path wellKnownSuffix = true → e.serverUrl.path ≠ redir.path →
      userInformationRedirectResponse e redir =
        RedirectOutcome.adopt
          ⟨Stage.DiscoveryRedirected,
           ⟨(if redir.scheme = [] then e.serverUrl.scheme else redir.scheme),
            (if redir.host = [] then e.serverUrl.host else redir.host),
            redir.path⟩⟩)
    ∧ (redir.path = e.serverUrl.path →
      userInformationRedirectResponse e redir = RedirectOutcome.abort 301)
    ∧ (endsWithL e.serverUrl.path wellKnownSuffix = false → e.serverUrl.path ≠ redir.path →
      userInformationRedirectResponse e redir = RedirectOutcome.abort 301) := by
  refine ⟨?_, ?_, ?_⟩
  · intro hwk hne
    unfold userInformationRedirectResponse
    rw [if_pos hne, if_pos hwk]
  · intro hpe
    unfold userInformationRedirectResponse
    rw [if_neg (by simp [hpe])]
  · intro hwk hne
    unfold userInformationRedirectResponse
    rw [if_pos hne, if_neg (by simp [hwk])]

/-- Witness for C5: the three redirect cases at concrete URLs. -/
theorem c5_redirect_handling_witness :
    userInformationRedirectResponse
        ⟨Stage.DiscoveryStarted, ⟨'h' :: [], 'o' :: [], wellKnownPath⟩⟩ ⟨[], [], '/' :: 'p' :: []⟩
      = RedirectOutcome.adopt ⟨Stage.DiscoveryRedirected, ⟨'h' :: [], 'o' :: [], '/' :: 'p' :: []⟩⟩
    ∧ userInformationRedirectResponse
        ⟨Stage.DiscoveryStarted, ⟨'h' :: [], 'o' :: [], wellKnownPath⟩⟩ ⟨[], [], wellKnownPath⟩
      = RedirectOutcome.abort 301
    ∧ userInformationRedirectResponse
        ⟨Stage.DiscoveryStarted, ⟨'h' :: [], 'o' :: [], '/' :: 'q' :: []⟩⟩ ⟨[], [], '/' :: 'p' :: []⟩
      = RedirectOutcome.abort 301 :=
  ⟨(c5_redirect_handling ⟨Stage.DiscoveryStarted, ⟨'h' :: [], 'o' :: [], wellKnownPath⟩⟩
      ⟨[], [], '/' :: 'p' :: []⟩).1 (by decide) (by decide),
   (c5_redirect_handling ⟨Stage.DiscoveryStarted, ⟨'h' :: [], 'o' :: [], wellKnownPath⟩⟩
      ⟨[], [], wellKnownPath⟩).2.1 (by decide),
   (c5_redirect_handling ⟨Stage.DiscoveryStarted, ⟨'h' :: [], 'o' :: [], '/' :: 'q' :: []⟩⟩
      ⟨[], [], '/' :: 'p' :: []⟩).2.2 (by decide) (by decide)⟩

/-- C6: the initial principal PROPFIND substitutes the well-known path
for an empty or root path; a 404/405 in the initial stage retries
against the well-known path when the failed path was not already
well-known, then against the root path when it was; once past the
initial stage (after the root retry) a 404/405 is fatal. -/
theorem c6_principal_discovery_fallbacks (e : Engine) (code : Nat) :
    (e.stage = Stage.DiscoveryStarted → (e.serverUrl.path = [] ∨ e.serverUrl.path = slashPath) →
      (fetchUserInformation e).2 = ⟨e.serverUrl.scheme, e.serverUrl.host, wellKnownPath⟩)
    ∧ ((code = 404 ∨ code = 405) → e.stage = Stage.DiscoveryStarted →
      endsWithL e.serverUrl.path wellKnownSuffix = false →
      userInformationErrorResponse e code =
        ErrorStep.retry ⟨Stage.DiscoveryStarted, ⟨e.serverUrl.scheme, e.serverUrl.host, wellKnownPath⟩⟩
          ⟨e.serverUrl.scheme, e.serverUrl.host, wellKnownPath⟩)
    ∧ ((code = 404 ∨ code = 405) → e.stage = Stage.DiscoveryStarted →
      endsWithL e.serverUrl.path wellKnownSuffix = true →
      userInformationErrorResponse e code =
        ErrorStep.retry ⟨Stage.DiscoveryTryRoot, ⟨e.serverUrl.scheme, e.serverUrl.host, slashPath⟩⟩
          ⟨e.serverUrl.scheme, e.serverUrl.host, slashPath⟩)
    ∧ (e.stage ≠ Stage.DiscoveryStarted → userInformationErrorResponse e code = ErrorStep.fatal code) := by
  have hwkNil : wellKnownPath ≠ ([] : Str) := by decide
  have hwkSlash : wellKnownPath ≠ slashPath := by decide
  refine ⟨?_, ?_, ?_, ?_⟩
  · intro hstage hpath
    rcases hpath with h | h <;> simp [fetchUserInformation, hstage, h]
  · intro hcode hstage hwk
    simp only [userInformationErrorResponse, fetchUserInformation]
    rw [if_pos ⟨hstage, hcode⟩]
    simp [hwk, hstage, hwkNil, hwkSlash]
  · intro hcode hstage hwk
    simp only [userInformationErrorResponse, fetchUserInformation]
    rw [if_pos ⟨hstage, hcode⟩]
    simp [hwk]
  · intro hstage
    simp [userInformationErrorResponse, hstage]

/-- Witness for C6: the four discovery cases at concrete URLs. -/
theorem c6_principal_discovery_fallbacks_witness :
    (fetchUserInformation ⟨Stage.DiscoveryStarted, ⟨'h' :: [], 'o' :: [], []⟩⟩).2
      = ⟨'h' :: [], 'o' :: [], wellKnownPath⟩
    ∧ userInformationErrorResponse ⟨Stage.DiscoveryStarted, ⟨'h' :: [], 'o' :: [], '/' :: 'p' :: []⟩⟩ 404
      = ErrorStep.retry ⟨Stage.DiscoveryStarted, ⟨'h' :: [], 'o' :: [], wellKnownPath⟩⟩
          ⟨'h' :: [], 'o' :: [], wellKnownPath⟩
    ∧ userInformationErrorResponse ⟨Stage.DiscoveryStarted, ⟨'h' :: [], 'o' :: [], wellKnownPath⟩⟩ 405
      = ErrorStep.retry ⟨Stage.DiscoveryTryRoot, ⟨'h' :: [], 'o' :: [], slashPath⟩⟩
          ⟨'h' :: [], 'o' :: [], slashPath⟩
    ∧ userInformationErrorResponse ⟨Stage.DiscoveryTryRoot, ⟨'h' :: [], 'o' :: [], slashPath⟩⟩ 404
      = ErrorStep.fatal 404 :=
  ⟨(c6_principal_discovery_fallbacks ⟨Stage.DiscoveryStarted, ⟨'h' :: [], 'o' :: [], []⟩⟩ 0).1
      (by decide) (by decide),
   (c6_principal_discovery_fallbacks ⟨Stage.DiscoveryStarted, ⟨'h' :: [], 'o' :: [], '/' :: 'p' :: []⟩⟩ 404).2.1
      (by decide) (by decide) (by decide),
   (c6_principal_discovery_fallbacks ⟨Stage.DiscoveryStarted, ⟨'h' :: [], 'o' :: [], wellKnownPath⟩⟩ 405).2.2.1
      (by decide) (by decide) (by decide),
   (c6_principal_discovery_fallbacks ⟨Stage.DiscoveryTryRoot, ⟨'h' :: [], 'o' :: [], slashPath⟩⟩ 404).2.2.2
      (by decide)⟩

/-- C7: an error reply to the sync-collection REPORT never fails the
sync or surfaces the error: the handler falls back to a full ETag
listing of that addressbook and leaves the cached sync tokens
untouched. -/
theorem c7_sync_token_error_fallback (cachedSyncTokens : List (Str × Str)) (addressbookUrl : Str)
    (httpError : Nat) (parsedNewSyncToken : Str) (parsedInfos : List ContactInfo) :
    immediateDeltaResponse cachedSyncTokens addressbookUrl (some httpError) parsedNewSyncToken parsedInfos
      = (ImmediateDeltaAction.fallbackFullListing addressbookUrl, cachedSyncTokens) := rfl

/-- Counterexample for C3: a sync token is available and differs from
the (empty, never recorded) cached one, yet the engine issues a full
ETag listing, not a sync-collection REPORT. -/
theorem c3_counterexample :
    (⟨'/' :: 'a' :: 'b' :: [], [], 's' :: 't' :: '2' :: []⟩ : ABInfo).syncToken ≠ []
    ∧ lookupD ([] : List (Str × Str)) ('/' :: 'a' :: 'b' :: []) []
        ≠ (⟨'/' :: 'a' :: 'b' :: [], [], 's' :: 't' :: '2' :: []⟩ : ABInfo).syncToken
    ∧ (downsyncOneAddressbook [] [] ⟨'/' :: 'a' :: 'b' :: [], [], 's' :: 't' :: '2' :: []⟩).1
        = DeltaAction.fullListing := by
  decide

/-- C3 (amended): the delta strategy per addressbook: a sync token that
differs from a non-empty cached token yields a sync-collection REPORT
with the cached token; a sync token equal to the cached one yields no
request; a sync token with no cached token (first sync) yields a full
ETag listing; with no sync token, a CTag equal to the cached one yields
no request, and an absent or differing CTag yields a full ETag
listing. -/
theorem c3_delta_strategy_selection (cachedCtags cachedSyncTokens : List (Str × Str)) (info : ABInfo) :
    (info.syncToken ≠ [] → lookupD cachedSyncTokens info.url [] ≠ [] →
      lookupD cachedSyncTokens info.url [] ≠ info.syncToken →
      (downsyncOneAddressbook cachedCtags cachedSyncTokens info).1
        = DeltaAction.syncReport (lookupD cachedSyncTokens info.url []))
    ∧ (info.syncToken ≠ [] → lookupD cachedSyncTokens info.url [] = info.syncToken →
      (downsyncOneAddressbook cachedCtags cachedSyncTokens info).1
        = DeltaAction.noRequestDeferredComplete)
    ∧ (info.syncToken ≠ [] → lookupD cachedSyncTokens info.url [] = [] →
      (downsyncOneAddressbook cachedCtags cachedSyncTokens info).1 = DeltaAction.fullListing)
    ∧ (info.syncToken = [] → info.ctag ≠ [] → lookupD cachedCtags info.url [] = info.ctag →
      (downsyncOneAddressbook cachedCtags cachedSyncTokens info).1
        = DeltaAction.noRequestDeferredComplete)
    ∧ (info.syncToken = [] → (info.ctag = [] ∨ lookupD cachedCtags info.url [] ≠ info.ctag) →
      (downsyncOneAddressbook cachedCtags cachedSyncTokens info).1 = DeltaAction.fullListing) := by
  refine ⟨?_, ?_, ?_, ?_, ?_⟩
  · intro h1 h2 h3
    simp [downsyncOneAddressbook, h1, h2, h3]
  · intro h1 h2
    simp [downsyncOneAddressbook, h1, h2]
  · intro h1 h2
    simp [downsyncOneAddressbook, h1, h2]
  · intro h1 h2 h3
    simp [downsyncOneAddressbook, h1, h2, h3]
  · intro h1 h2
    rcases h2 with h2 | h2
    · simp [downsyncOneAddressbook, h1, h2]
    · by_cases h3 : info.ctag = []
      · simp [downsyncOneAddressbook, h1, h3]
      · by_cases h4 : lookupD cachedCtags info.url [] = []
        · simp [downsyncOneAddressbook, h1, h3, h4]
        · simp [downsyncOneAddressbook, h1, h3, h4, h2]

/-- Witness for C3: the five strategy cases at concrete cache states. -/
theorem c3_delta_strategy_selection_witness :
    (downsyncOneAddressbook [] (('u' :: [], 't' :: '1' :: []) :: []) ⟨'u' :: [], [], 't' :: '2' :: []⟩).1
      = DeltaAction.syncReport ('t' :: '1' :: [])
    ∧ (downsyncOneAddressbook [] (('u' :: [], 't' :: '1' :: []) :: []) ⟨'u' :: [], [], 't' :: '1' :: []⟩).1
      = DeltaAction.noRequestDeferredComplete
    ∧ (downsyncOneAddressbook [] [] ⟨'u' :: [], [], 't' :: '1' :: []⟩).1 = DeltaAction.fullListing
    ∧ (downsyncOneAddressbook (('u' :: [], 'c' :: '1' :: []) :: []) [] ⟨'u' :: [], 'c' :: '1' :: [], []⟩).1
      = DeltaAction.noRequestDeferredComplete
    ∧ (downsyncOneAddressbook (('u' :: [], 'c' :: '1' :: []) :: []) [] ⟨'u' :: [], 'c' :: '2' :: [], []⟩).1
      = DeltaAction.fullListing :=
  ⟨(c3_delta_strategy_selection [] (('u' :: [], 't' :: '1' :: []) :: []) ⟨'u' :: [], [], 't' :: '2' :: []⟩).1
      (by decide) (by decide) (by decide),
   (c3_delta_strategy_selection [] (('u' :: [], 't' :: '1' :: []) :: []) ⟨'u' :: [], [], 't' :: '1' :: []⟩).2.1
      (by decide) (by decide),
   (c3_delta_strategy_selection [] [] ⟨'u' :: [], [], 't' :: '1' :: []⟩).2.2.1 (by decide) (by decide),
   (c3_delta_strategy_selection (('u' :: [], 'c' :: '1' :: []) :: []) [] ⟨'u' :: [], 'c' :: '1' :: [], []⟩).2.2.2.1
      (by decide) (by decide) (by decide),
   (c3_delta_strategy_selection (('u' :: [], 'c' :: '1' :: []) :: []) [] ⟨'u' :: [], 'c' :: '2' :: [], []⟩).2.2.2.2
      (by decide) (by decide)⟩

/-- Counterexample for C4: the first addressbook has no delta activity
(its sync token matches the cached one), the second does, yet the code
makes the first one the default addressbook. -/
theorem c4_counterexample :
    updatedDefaultAddressbook []
        (⟨'a' :: '1' :: [], [], 't' :: '1' :: []⟩ :: ⟨'a' :: '2' :: [], [], 't' :: '2' :: []⟩ :: [])
      = 'a' :: '1' :: []
    ∧ firstAddressbookWithDeltaActivity []
        (('a' :: '1' :: [], 't' :: '1' :: []) :: ('a' :: '2' :: [], 't' :: '0' :: []) :: [])
        (⟨'a' :: '1' :: [], [], 't' :: '1' :: []⟩ :: ⟨'a' :: '2' :: [], [], 't' :: '2' :: []⟩ :: [])
      = some ('a' :: '2' :: [])
    ∧ ('a' :: '1' :: [] : Str) ≠ 'a' :: '2' :: [] := by
  decide

theorem defaultAddressbook_foldl_stable (infos : List ABInfo) (cur : Str) (h : cur ≠ []) :
    infos.foldl (fun c info => if c = [] then info.url else c) cur = cur := by
  induction infos with
  | nil => rfl
  | cons i is ih =>
    rw [List.foldl_cons, if_neg h]
    exact ih

/-- C4 (amended): when no default addressbook is set yet, the default
becomes the first addressbook in enumeration order (with a non-empty
URL), regardless of whether it has any delta activity. -/
theorem c4_default_addressbook (info : ABInfo) (rest : List ABInfo) (h : info.url ≠ []) :
    updatedDefaultAddressbook [] (info :: rest) = info.url := by
  unfold updatedDefaultAddressbook
  rw [List.foldl_cons, if_pos rfl]
  exact defaultAddressbook_foldl_stable rest info.url h

/-- Witness for C4: the default at a concrete two-addressbook list. -/
theorem c4_default_addressbook_witness :
    updatedDefaultAddressbook []
        (⟨'a' :: '1' :: [], [], 't' :: '1' :: []⟩ :: ⟨'a' :: '2' :: [], [], 't' :: '2' :: []⟩ :: [])
      = 'a' :: '1' :: [] :=
  c4_default_addressbook ⟨'a' :: '1' :: [], [], 't' :: '1' :: []⟩
    (⟨'a' :: '2' :: [], [], 't' :: '2' :: []⟩ :: []) (by decide)

theorem upsyncDeletionResponse_state (s : SyncState) (failed : Bool) (httpError : Nat) :
    (upsyncDeletionResponse s failed httpError).2 = s := by
  cases failed
  · simp [upsyncDeletionResponse]
  · by_cases h : httpError = 405 <;> simp [upsyncDeletionResponse, h]

/-- Counterexample for C1: the engine issues the DELETE with If-Match on
the stored ETag, but the per-GUID purge happens at dispatch time: after
a FAILED delete the contact_uids entry is already gone (the claim says
the state is unchanged on failure), and even after a successful delete
the contact_unsupported_properties entry survives (the claim says all
per-GUID entries are purged). -/
theorem c1_counterexample :
    (processLocalRemoval exState 5 exAbUrl exContact).1
      = some ⟨exUri, 'e' :: '1' :: []⟩
    ∧ lookupD exState.contactUids exGuid [] = 'u' :: '1' :: []
    ∧ lookupD (upsyncDeletionResponse (processLocalRemoval exState 5 exAbUrl exContact).2 true 500).2.contactUids
        exGuid [] = []
    ∧ lookupD (upsyncDeletionResponse (processLocalRemoval exState 5 exAbUrl exContact).2 false 200).2.contactUnsupportedProperties
        exGuid [] = ('X' :: '-' :: 'F' :: []) :: [] := by
  decide

/-- C1 (amended): for every local removal whose addressbook-specific GUID
has a known URI, the engine issues a DELETE with If-Match using the
stored ETag and immediately - at dispatch time, regardless of the
DELETE's eventual outcome - purges the contact_uids, contact_uris,
contact_etags and contact_ids entries and the addressbook_contact_guids
membership; the contact_unsupported_properties entry is NOT purged, and
the DELETE response handler leaves the per-GUID state unchanged whether
the DELETE succeeds, fails, or is swallowed as a 405. -/
theorem c1_local_removal_purge (s : SyncState) (accountId : Nat) (addressbookUrl : Str) (c : Contact)
    (h : lookupD s.contactUris (transformIntoAddressbookSpecificGuid c.guid accountId addressbookUrl) [] ≠ []) :
    (processLocalRemoval s accountId addressbookUrl c).1
      = some ⟨lookupD s.contactUris (transformIntoAddressbookSpecificGuid c.guid accountId addressbookUrl) [],
              lookupD s.contactEtags (transformIntoAddressbookSpecificGuid c.guid accountId addressbookUrl) []⟩
    ∧ (processLocalRemoval s accountId addressbookUrl c).2
      = { s with
          contactEtags := mapRemove s.contactEtags (transformIntoAddressbookSpecificGuid c.guid accountId addressbookUrl)
          contactUris := mapRemove s.contactUris (transformIntoAddressbookSpecificGuid c.guid accountId addressbookUrl)
          contactIds := mapRemove s.contactIds (transformIntoAddressbookSpecificGuid c.guid accountId addressbookUrl)
          contactUids := mapRemove s.contactUids (transformIntoAddressbookSpecificGuid c.guid accountId addressbookUrl)
          addressbookContactGuids := removeOneGuid s.addressbookContactGuids addressbookUrl
            (transformIntoAddressbookSpecificGuid c.guid accountId addressbookUrl) }
    ∧ (processLocalRemoval s accountId addressbookUrl c).2.contactUnsupportedProperties
      = s.contactUnsupportedProperties
    ∧ (∀ (failed : Bool) (httpError : Nat),
        (upsyncDeletionResponse (processLocalRemoval s accountId addressbookUrl c).2 failed httpError).2
          = (processLocalRemoval s accountId addressbookUrl c).2) := by
  refine ⟨?_, ?_, ?_, ?_⟩
  · simp [processLocalRemoval, h]
  · simp [processLocalRemoval, h]
  · simp [processLocalRemoval, h]
  · intro failed httpError
    exact upsyncDeletionResponse_state _ failed httpError

/-- Witness for C1 (amended): the known-URI hypothesis discharged at the
concrete example state. -/
theorem c1_local_removal_purge_witness :
    lookupD exState.contactUris (transformIntoAddressbookSpecificGuid exContact.guid 5 exAbUrl) [] ≠ []
    ∧ (processLocalRemoval exState 5 exAbUrl exContact).2.contactUnsupportedProperties
      = exState.contactUnsupportedProperties :=
  ⟨by decide, (c1_local_removal_purge exState 5 exAbUrl exContact (by decide)).2.2.1⟩

/-- C2: a local modification whose server UID was downsynced in this run
is silently skipped (no PUT) when the local copy differs from none of the
downsynced copies by a significant field, and the PUT is issued when some
downsynced copy differs significantly. -/
theorem c2_spurious_modification_filter (sigDiff : Contact → Contact → Bool) (s : SyncState)
    (accountId : Nat) (addressbookUrl : Str) (c : Contact) (g uid : Str)
    (hgdef : g = transformIntoAddressbookSpecificGuid c.guid accountId addressbookUrl)
    (huiddef : uid = lookupD s.contactUids g [])
    (hg : c.guid ≠ [])
    (huid : uid ≠ [])
    (hmap : multiValues s.serverAddModsByUid uid ≠ []) :
    ((∀ p ∈ multiValues s.serverAddModsByUid uid, sigDiff (setUpsyncContactGuid c uid) p.2 = false) →
      (processLocalModification sigDiff s accountId addressbookUrl c).1 = none)
    ∧ ((∃ p ∈ multiValues s.serverAddModsByUid uid, sigDiff (setUpsyncContactGuid c uid) p.2 = true) →
      (processLocalModification sigDiff s accountId addressbookUrl c).1
        = some ⟨lookupD s.contactUris g [], lookupD s.contactEtags g [],
                setUpsyncContactGuid c uid, lookupD s.contactUnsupportedProperties g []⟩) := by
  subst hgdef
  subst huiddef
  constructor
  · intro hall
    have hall2 : (multiValues s.serverAddModsByUid
        (lookupD s.contactUids (transformIntoAddressbookSpecificGuid c.guid accountId addressbookUrl) [])).all
        (fun p => !(sigDiff (setUpsyncContactGuid c
          (lookupD s.contactUids (transformIntoAddressbookSpecificGuid c.guid accountId addressbookUrl) [])) p.2))
        = true := by
      rw [List.all_eq_true]
      intro p hp
      simp [hall p hp]
    simp [processLocalModification, hg, huid, hmap, hall2]
  · intro hex
    rcases hex with ⟨p, hp, hsig⟩
    have hall2 : (multiValues s.serverAddModsByUid
        (lookupD s.contactUids (transformIntoAddressbookSpecificGuid c.guid accountId addressbookUrl) [])).all
        (fun q => !(sigDiff (setUpsyncContactGuid c
          (lookupD s.contactUids (transformIntoAddressbookSpecificGuid c.guid accountId addressbookUrl) [])) q.2))
        = false := by
      rw [← Bool.not_eq_true, List.all_eq_true]
      intro hforall
      have := hforall p hp
      simp [hsig] at this
    simp [processLocalModification, hg, huid, hmap, hall2]

/-- Concrete downsynced copy of the example contact, identical to the
local copy (empty display label). -/
def exDownsyncedSame : Contact := ⟨'u' :: '1' :: [], [], ⟨[], []⟩, []⟩

/-- Concrete downsynced copy of the example contact with a different
display label. -/
def exDownsyncedDiff : Contact := ⟨'u' :: '1' :: [], [], ⟨[], []⟩, 'x' :: []⟩

/-- Concrete significant-differences predicate: display labels differ. -/
def exSigDiff : Contact → Contact → Bool := fun a b => a.displayLabel != b.displayLabel

/-- Example state whose UID u1 was downsynced with an identical copy. -/
def exStateSame : SyncState :=
  { exState with serverAddModsByUid := ('u' :: '1' :: [], ('/' :: 'a' :: 'b' :: '2' :: [], exDownsyncedSame)) :: [] }

/-- Example state whose UID u1 was downsynced with a significantly
different copy. -/
def exStateDiff : SyncState :=
  { exState with serverAddModsByUid := ('u' :: '1' :: [], ('/' :: 'a' :: 'b' :: '2' :: [], exDownsyncedDiff)) :: [] }

/-- Witness for C2: both filter branches at concrete states. -/
theorem c2_spurious_modification_filter_witness :
    (processLocalModification exSigDiff exStateSame 5 exAbUrl exContact).1 = none
    ∧ (processLocalModification exSigDiff exStateDiff 5 exAbUrl exContact).1
      = some ⟨exUri, 'e' :: '1' :: [], setUpsyncContactGuid exContact ('u' :: '1' :: []),
              ('X' :: '-' :: 'F' :: []) :: []⟩ :=
  ⟨(c2_spurious_modification_filter exSigDiff exStateSame 5 exAbUrl exContact exGuid ('u' :: '1' :: [])
      (by decide) (by decide) (by decide) (by decide) (by decide)).1 (by decide),
   ((c2_spurious_modification_filter exSigDiff exStateDiff 5 exAbUrl exContact exGuid ('u' :: '1' :: [])
      (by decide) (by decide) (by decide) (by decide) (by decide)).2 (by decide)).trans (by decide)⟩

theorem lastOccBelow_eq {pat s : Str} {k : Nat} (hk : occursAtB pat s k = true) :
    ∀ n, (∀ i, k < i → i < n → occursAtB pat s i = false) → k < n →
    lastOccBelow pat s n = some k := by
  intro n
  induction n with
  | zero => intro _ h; omega
  | succ n ih =>
    intro habove hlt
    by_cases hkn : k = n
    · subst hkn
      unfold lastOccBelow
      rw [if_pos hk]
    · have hfalse : occursAtB pat s n = false := habove n (by omega) (by omega)
      unfold lastOccBelow
      rw [if_neg (by simp [hfalse])]
      exact ih (fun i h1 h2 => habove i h1 (by omega)) (by omega)

theorem occursAt_boundary (P : Str) :
    occursAtB endVcard (P ++ (endVcard ++ crlf)) P.length = true := by
  unfold occursAtB
  rw [List.drop_left]
  exact startsWithL_append_self _ _

theorem occursAt_above (P : Str) (i : Nat) (h : P.length < i) :
    occursAtB endVcard (P ++ (endVcard ++ crlf)) i = false := by
  unfold occursAtB
  have hi : i = P.length + (i - P.length) := by omega
  rw [hi, List.drop_append]
  have hlen : (endVcard ++ crlf).length = 11 := by decide
  by_cases hj : i - P.length ≤ 11
  · have hfact : ∀ j, j < 12 → 1 ≤ j → startsWithL ((endVcard ++ crlf).drop j) endVcard = false := by
      decide
    exact hfact (i - P.length) (by omega) (by omega)
  · rw [List.drop_eq_nil_of_le (by omega)]
    decide

theorem lastIndexOf_clean (P : Str) :
    lastIndexOf (P ++ (endVcard ++ crlf)) endVcard = (P.length : Int) := by
  have hmain : lastOccBelow endVcard (P ++ (endVcard ++ crlf))
      ((P ++ (endVcard ++ crlf)).length + 1) = some P.length :=
    lastOccBelow_eq (occursAt_boundary P) _
      (fun i h1 _ => occursAt_above P i h1)
      (by rw [List.length_append]; omega)
  unfold lastIndexOf
  rw [hmain]

theorem addUnsupported_clean (props : List Str) : ∀ body : Str, body ≠ [] →
    addUnsupportedProperties (body ++ (endVcard ++ crlf)) props
      = body ++ flatProps props ++ (endVcard ++ crlf) := by
  induction props with
  | nil =>
    intro body _
    simp [addUnsupportedProperties, flatProps]
  | cons p ps ih =>
    intro body hne
    have hflat : flatProps (p :: ps) = (p ++ crlf) ++ flatProps ps := by
      simp [flatProps]
    have hstep : addUnsupportedProperties (body ++ (endVcard ++ crlf)) (p :: ps)
        = addUnsupportedProperties ((body ++ (p ++ crlf)) ++ (endVcard ++ crlf)) ps := by
      unfold addUnsupportedProperties
      rw [List.foldl_cons]
      congr 1
      show (if lastIndexOf (body ++ (endVcard ++ crlf)) endVcard > 0
            then insertAt (body ++ (endVcard ++ crlf))
              (lastIndexOf (body ++ (endVcard ++ crlf)) endVcard).toNat (p ++ crlf)
            else body ++ (endVcard ++ crlf))
          = (body ++ (p ++ crlf)) ++ (endVcard ++ crlf)
      rw [lastIndexOf_clean body]
      have hpos : (0 : Int) < (body.length : Int) := by
        have := List.length_pos.mpr hne
        exact_mod_cast this
      rw [if_pos hpos]
      unfold insertAt
      rw [Int.toNat_natCast, List.take_left, List.drop_left]
    rw [hstep]
    have hne2 : body ++ (p ++ crlf) ≠ ([] : Str) := by
      simp [hne]
    rw [ih (body ++ (p ++ crlf)) hne2, hflat]
    simp [List.append_assoc]

/-- C8: exporting a contact with a list of unsupported-property lines
splices each line verbatim, in input order, immediately before the
terminal END:VCARD line of the serialized vCard.  The serialized output
of QVersitWriter is a non-empty body followed by the terminal
`END:VCARD` and CRLF; insertion always targets the last END:VCARD
occurrence, which remains the terminal one throughout the loop. -/
theorem c8_unsupported_property_insertion (body : Str) (props : List Str)
    (hne : body ≠ []) :
    addUnsupportedProperties (body ++ (endVcard ++ crlf)) props
      = body ++ flatProps props ++ (endVcard ++ crlf) :=
  addUnsupported_clean props body hne

/-- Witness for C8: both example property lines spliced in order before
the terminal END:VCARD of a concrete serialized vCard. -/
theorem c8_unsupported_property_insertion_witness :
    c8Body ≠ ([] : Str)
    ∧ addUnsupportedProperties (c8Body ++ (endVcard ++ crlf)) (c8Prop1 :: c8Prop2 :: [])
      = c8Body ++ flatProps (c8Prop1 :: c8Prop2 :: []) ++ (endVcard ++ crlf) :=
  ⟨by decide,
   c8_unsupported_property_insertion c8Body (c8Prop1 :: c8Prop2 :: []) (by decide)⟩

/-- C9: a contact exported to a vCard lacking FN or N gains the missing
ones: FN carries the generated display label and N its decomposition
formatted `last;first;;;`, the whole label standing in as the first name
when the decomposition yields none; whichever of the two is already
present is left alone; in particular a contact with display label
Jane Q Public and no structured name yields FN value `Jane Q Public`
and N value `Public;Jane;;;`. -/
theorem c9_fn_n_synthesis (c : Contact) (d : List VProp) (label : Str) (nm : CName)
    (hlabel : label = generateDisplayLabel c)
    (hnm : nm = (if (decomposeDisplayLabel label c.name).firstName = []
                 then { decomposeDisplayLabel label c.name with firstName := label }
                 else decomposeDisplayLabel label c.name)) :
    (d.any (fun p => p.name == fnName) = false → d.any (fun p => p.name == nName) = false →
      contactProcessed c d
        = d ++ (⟨fnName, label⟩ ::
            ⟨nName, nm.lastName ++ (';' :: nm.firstName) ++ (';' :: ';' :: ';' :: [])⟩ :: []))
    ∧ (d.any (fun p => p.name == fnName) = false → d.any (fun p => p.name == nName) = true →
      contactProcessed c d = d ++ (⟨fnName, label⟩ :: []))
    ∧ (d.any (fun p => p.name == fnName) = true → d.any (fun p => p.name == nName) = false →
      contactProcessed c d
        = d ++ (⟨nName, nm.lastName ++ (';' :: nm.firstName) ++ (';' :: ';' :: ';' :: [])⟩ :: []))
    ∧ contactProcessed janeContact janeDoc
      = janeDoc ++ (⟨fnName, janeLabel⟩ :: ⟨nName, janeN⟩ :: []) := by
  subst hlabel
  subst hnm
  refine ⟨?_, ?_, ?_, by decide⟩
  · intro hfn hn
    simp [contactProcessed, hfn, hn]
  · intro hfn hn
    simp [contactProcessed, hfn, hn]
  · intro hfn hn
    simp [contactProcessed, hfn, hn]

/-- Witness for C9: all three synthesis cases discharged at the
Jane Q Public example. -/
theorem c9_fn_n_synthesis_witness :
    (janeDoc.any (fun p => p.name == fnName) = false)
    ∧ contactProcessed janeContact janeDoc
      = janeDoc ++ (⟨fnName, janeLabel⟩ :: ⟨nName, janeN⟩ :: [])
    ∧ contactProcessed janeContact janeDocN = janeDocN ++ (⟨fnName, janeLabel⟩ :: [])
    ∧ contactProcessed janeContact janeDocFN = janeDocFN ++ (⟨nName, janeN⟩ :: []) :=
  ⟨by decide,
   ((c9_fn_n_synthesis janeContact janeDoc janeLabel janeName (by decide) (by decide)).1
      (by decide) (by decide)).trans (by decide),
   (c9_fn_n_synthesis janeContact janeDocN janeLabel janeName (by decide) (by decide)).2.1
      (by decide) (by decide),
   ((c9_fn_n_synthesis janeContact janeDocFN janeLabel janeName (by decide) (by decide)).2.2.1
      (by decide) (by decide)).trans (by decide)⟩
